import Mathlib

/-!
Verification of the Update-Weekly-Budget synchronization scripts
(`src/sync_budget_data.py` and `src/Weekly-Budget.py`).

Python calendar dates are embedded as integers counting days since
1970-01-01 (proleptic Gregorian); `daysFromCivil` / `civilFromDays` are the
standard conversions between a (year, month, day) triple and that count,
and `pythonWeekday` is Python's `date.weekday()` (Monday = 0; day 0,
1970-01-01, was a Thursday).  Warehouse cell values are embedded as the
inductive `PyVal`; every remote service call (warehouse fetch, spreadsheet
clear/update/append) is embedded as an `Except`-valued oracle, and the
spreadsheet itself as explicit state, so that `main`'s control flow and the
resource-handling of the cursor/connection pairs become pure functions of
those oracles.
-/

namespace BudgetSync

/-- Day count of the Gregorian date (y, m, d) since 1970-01-01 (Hinnant's
days-from-civil algorithm); embeds Python `datetime.date`. -/
def daysFromCivil (y m d : Int) : Int :=
  let yAdj : Int := if m ≤ 2 then y - 1 else y
  let era : Int := (if 0 ≤ yAdj then yAdj else yAdj - 399) / 400
  let yoe : Int := yAdj - era * 400
  let mp : Int := (m + 9) % 12
  let doy : Int := (153 * mp + 2) / 5 + d - 1
  let doe : Int := yoe * 365 + yoe / 4 - yoe / 100 + doy
  era * 146097 + doe - 719468

/-- Inverse conversion: the (year, month, day) of a day count. -/
def civilFromDays (z0 : Int) : Int × Int × Int :=
  let z : Int := z0 + 719468
  let era : Int := (if 0 ≤ z then z else z - 146096) / 146097
  let doe : Int := z - era * 146097
  let yoe : Int := (doe - doe / 1460 + doe / 36524 - doe / 146096) / 365
  let y : Int := yoe + era * 400
  let doy : Int := doe - (365 * yoe + yoe / 4 - yoe / 100)
  let mp : Int := (5 * doy + 2) / 153
  let d : Int := doy - (153 * mp + 2) / 5 + 1
  let m : Int := mp + (if mp < 10 then 3 else -9)
  (if m ≤ 2 then y + 1 else y, m, d)

/-- Python `date.weekday()`: Monday = 0, ..., Sunday = 6. -/
def pythonWeekday (t : Int) : Int := (t + 3) % 7

/-- `sync_budget_data.compute_budget_date_range` (lines 16-26): the rolling
window centered on today; the argument embeds the `date.today()` call. -/
def compute_budget_date_range (today : Int) : Int × Int :=
  let start_date := today - 75
  let end_date := today + 75
  (start_date, end_date)

/-- `sync_budget_data.compute_time_entries_range` (lines 29-44): the
previous Monday-Sunday week window; the argument embeds `date.today()`. -/
def compute_time_entries_range (today : Int) : Int × Int :=
  let this_monday := today - pythonWeekday today
  let prev_monday := this_monday - 7
  let prev_sunday := prev_monday + 6
  (prev_monday, prev_sunday)

/-- Python `str.strip()` on the left end of a character list. -/
def stripLeft : List Char → List Char
  | [] => []
  | c :: cs => if c.isWhitespace then stripLeft cs else c :: cs

/-- Python `str.strip()`: whitespace removed from both ends. -/
def pyStrip (s : String) : String :=
  ⟨(stripLeft (stripLeft s.data.reverse).reverse)⟩

/-- First-occurrence split: `breakOn sep l = some (pre, post)` when
`l = pre ++ sep ++ post` at the first occurrence of `sep`, and `none` when
`sep` does not occur; embeds Python's `sep in raw` test together with
`raw.split(sep)[0]`. -/
def breakOn (sep : List Char) : List Char → Option (List Char × List Char)
  | [] => none
  | c :: cs =>
    if sep.isPrefixOf (c :: cs) then some ([], (c :: cs).drop sep.length)
    else
      match breakOn sep cs with
      | some (pre, post) => some (c :: pre, post)
      | none => none

/-- The characters of `".snowflakecomputing.com"`. -/
def snowflakeDomain : List Char := ".snowflakecomputing.com".data

/-- `sync_budget_data._normalize_snowflake_account` (lines 92-101): strip
whitespace, drop a leading `https://` or `http://`, and keep only the part
before `".snowflakecomputing.com"` when that suffix occurs. -/
def _normalize_snowflake_account (raw : String) : String :=
  let r1 := pyStrip raw
  let r2 :=
    if "https://".data.isPrefixOf r1.data then ⟨r1.data.drop 8⟩
    else if "http://".data.isPrefixOf r1.data then ⟨r1.data.drop 7⟩
    else r1
  match breakOn snowflakeDomain r2.data with
  | some p => ⟨p.1⟩
  | none => r2

/-- A Python value as it can appear in a warehouse result cell: `None`,
strings, plain numbers, booleans, `decimal.Decimal` (carried exactly as a
rational), and date / datetime objects (the two value shapes that carry an
`isoformat` method).  `float` also carries a rational: the decimals this
system converts are exact fixed-precision quantities. -/
inductive PyVal where
  | none
  | str (s : String)
  | int (n : Int)
  | float (q : ℚ)
  | bool (b : Bool)
  | decimal (q : ℚ)
  | date (y m d : Int)
  | datetime (y m d hh mi ss : Int)
deriving DecidableEq

/-- Python `hasattr(value, "isoformat")`: true exactly for date and
datetime values. -/
def hasIsoformat : PyVal → Bool
  | .date _ _ _ => true
  | .datetime _ _ _ _ _ _ => true
  | _ => false

/-- Left-pad the decimal rendering of a number with zeros to width `w`. -/
def padNum (w : Nat) (n : Int) : String :=
  let s := toString n.natAbs
  ⟨List.replicate (w - s.length) '0'⟩ ++ s

/-- Python `value.isoformat()` for the values that have it:
`YYYY-MM-DD` for dates, `YYYY-MM-DDTHH:MM:SS` for datetimes. -/
def pyIsoformat : PyVal → String
  | .date y m d => padNum 4 y ++ "-" ++ padNum 2 m ++ "-" ++ padNum 2 d
  | .datetime y m d hh mi ss =>
      padNum 4 y ++ "-" ++ padNum 2 m ++ "-" ++ padNum 2 d ++ "T" ++
        padNum 2 hh ++ ":" ++ padNum 2 mi ++ ":" ++ padNum 2 ss
  | _ => ""

/-- `sync_budget_data._normalize_value` (lines 122-130): `None` to `""`,
`Decimal` to float, anything with `isoformat` to its ISO string, all other
values unchanged (branch order as in the source). -/
def _normalize_value (v : PyVal) : PyVal :=
  match v with
  | .none => .str ""
  | .decimal q => .float q
  | v => if hasIsoformat v then .str (pyIsoformat v) else v

/-- The data portion of `sync_budget_data.run_query` (lines 140-142): given
the column names from `cursor.description` and the fetched rows, every cell
of every row is normalized before the rows are returned. -/
def run_query_rows (headers : List String) (rows : List (List PyVal)) :
    List String × List (List PyVal) :=
  (headers, rows.map fun row => row.map _normalize_value)

/-- ISO rendering of a day count, as `date.isoformat()` produces it. -/
def isoOfDays (t : Int) : String :=
  padNum 4 (civilFromDays t).1 ++ "-" ++ padNum 2 (civilFromDays t).2.1 ++ "-" ++
    padNum 2 (civilFromDays t).2.2

/-- Resource events of one adapter execution: opening and closing the
warehouse connection and cursor, and an exception being raised. -/
inductive ResEvent where
  | connOpen
  | cursorOpen
  | cursorClose
  | connClose
  | raised
deriving DecidableEq

/-- Resource trace of `sync_budget_data.run_query` (lines 133-145).
`conn = get_snowflake_connection()` and `cursor = conn.cursor()` run before
the `try:`; when `conn.cursor()` raises, the exception propagates with no
`finally` in scope, so neither close runs.  Once the cursor is acquired,
the `finally` closes cursor and connection whether `execute`/`fetchall`
succeed or raise. -/
def run_query_trace (cursorOk execOk fetchOk : Bool) : List ResEvent :=
  [ResEvent.connOpen] ++
    (if cursorOk then
      [ResEvent.cursorOpen] ++
        (if execOk then (if fetchOk then [] else [ResEvent.raised])
         else [ResEvent.raised]) ++
        [ResEvent.cursorClose, ResEvent.connClose]
     else [ResEvent.raised])

namespace WeeklyBudget

/-- Resource trace of `Weekly-Budget.fetch_budget_data` (lines 60-84).
Here `cursor = conn.cursor()` is inside the `try:`; when it raises, the
`finally` clause evaluates `cursor.close()` on the never-bound local
`cursor`, which itself raises (a second exception), so `conn.close()` on
the next line never runs.  Once the cursor is acquired, both closes run on
every path. -/
def fetch_budget_data_trace (cursorOk execOk fetchOk : Bool) : List ResEvent :=
  [ResEvent.connOpen] ++
    (if cursorOk then
      [ResEvent.cursorOpen] ++
        (if execOk then (if fetchOk then [] else [ResEvent.raised])
         else [ResEvent.raised]) ++
        [ResEvent.cursorClose, ResEvent.connClose]
     else [ResEvent.raised, ResEvent.raised])

/-- The `normalize` function nested inside `Weekly-Budget.fetch_budget_data`
(lines 72-78): `None` to `""`, anything with `isoformat` to its ISO string,
everything else unchanged.  It has no `Decimal` branch. -/
def normalize (v : PyVal) : PyVal :=
  match v with
  | .none => .str ""
  | v => if hasIsoformat v then .str (pyIsoformat v) else v

end WeeklyBudget

/-- One row overlaid on another, as a Sheets `values.update` writes a row
starting at column A: the written cells replace the old ones positionally,
old cells beyond the written width survive. -/
def overlayRow (old new : List PyVal) : List PyVal := new ++ old.drop new.length

/-- A value matrix overlaid on a grid starting at cell A1, as
`values.update` with range `...!A1` does: written rows replace old rows
positionally, old rows beyond the written height survive, written rows
beyond the old height extend the grid. -/
def overlayGrid : List (List PyVal) → List (List PyVal) → List (List PyVal)
  | o, [] => o
  | [], n => n
  | o :: os, n :: ns => overlayRow o n :: overlayGrid os ns

/-- One `write_to_sheet` execution against the spreadsheet service
(`sync_budget_data.write_to_sheet`, lines 164-187): first
`values.clear` on the whole tab, then `values.update` of
`[headers] + rows` at A1.  `clearRes` and `updateRes` are the two remote
calls' outcomes; the returned grid is the tab's contents afterwards
(unchanged when the clear fails, empty when the update fails after the
clear, the written matrix on success). -/
def writeStep (clearRes updateRes : Except String Unit) (headers : List String)
    (rows : List (List PyVal)) (grid : List (List PyVal)) :
    Except String Unit × List (List PyVal) :=
  match clearRes with
  | .error e => (.error e, grid)
  | .ok _ =>
    match updateRes with
    | .error e => (.error e, [])
    | .ok _ => (.ok (), overlayGrid [] (headers.map PyVal.str :: rows))

/-- The tab contents `write_to_sheet` leaves behind when both remote calls
succeed (header cells are strings, so they enter the grid as `PyVal.str`). -/
def write_to_sheet (headers : List String) (rows : List (List PyVal))
    (grid : List (List PyVal)) : List (List PyVal) :=
  (writeStep (Except.ok ()) (Except.ok ()) headers rows grid).2

/-- One tab of the spreadsheet: its title and cell grid. -/
structure SheetTab where
  title : String
  grid : List (List PyVal)
deriving DecidableEq

/-- The Run Log header row `ensure_log_sheet` writes
(`sync_budget_data.ensure_log_sheet`, lines 224-232). -/
def logHeaders : List String :=
  ["Run Timestamp (UTC)", "Budget Start Date", "Budget End Date", "Budget Row Count",
   "TimeEntries Start Date", "TimeEntries End Date", "TimeEntries Row Count"]

/-- The existence test of `ensure_log_sheet` (lines 201-204): some sheet's
title equals the tab name. -/
def sheetExists (s : List SheetTab) (t : String) : Bool :=
  s.any fun tab => tab.title == t

/-- The `addSheet` batchUpdate request (lines 206-221): a new empty tab with
the given title is added to the spreadsheet. -/
def addSheet (s : List SheetTab) (t : String) : List SheetTab :=
  s ++ [⟨t, []⟩]

/-- A `values.update` addressed by tab name (range `tab!A1`): the first tab
with that title gets the values overlaid on its grid at A1. -/
def updateFirst (s : List SheetTab) (t : String) (values : List (List PyVal)) :
    List SheetTab :=
  match s with
  | [] => []
  | tab :: rest =>
    if tab.title = t then ⟨tab.title, overlayGrid tab.grid values⟩ :: rest
    else tab :: updateFirst rest t values

/-- `sync_budget_data.ensure_log_sheet` (lines 194-238): add the tab when no
tab of that title exists, then unconditionally rewrite the header row at
`tab!A1`. -/
def ensure_log_sheet (s : List SheetTab) (t : String) : List SheetTab :=
  let s1 := if sheetExists s t then s else addSheet s t
  updateFirst s1 t [logHeaders.map PyVal.str]

/-- The row `log_run` appends (lines 260-268): UTC timestamp, both windows'
ISO dates, both row counts. -/
def logRow (ts : String) (bs be : Int) (brows : Nat) (tes tee : Int) (terows : Nat) :
    List PyVal :=
  [.str ts, .str (isoOfDays bs), .str (isoOfDays be), .int brows,
   .str (isoOfDays tes), .str (isoOfDays tee), .int terows]

/-- The date windows `main` computes on its first two lines (lines
285-286): `compute_budget_date_range` and `compute_time_entries_range` each
call `date.today()` internally, so the first function sees the 0th call's
result and the second the 1st call's; `clock n` is the date returned by the
n-th `date.today()` call of the run. -/
def mainWindows (clock : Nat → Int) : (Int × Int) × (Int × Int) :=
  (compute_budget_date_range (clock 0), compute_time_entries_range (clock 1))

/-- Outcomes of the remote calls one run of `main` can make, in program
order, plus the dates the run's `date.today()` calls return and the
timestamp `log_run` reads. -/
structure RunOracles where
  today : Nat → Int
  fetchBudget : Except String (List String × List (List PyVal))
  fetchTE : Except String (List String × List (List PyVal))
  clearBudget : Except String Unit
  updateBudget : Except String Unit
  clearTE : Except String Unit
  updateTE : Except String Unit
  ensureLog : Except String Unit
  appendLog : Except String Unit
  timestamp : String

/-- The spreadsheet state `main` mutates: the BudgetData tab, the
TimeEntriesData tab and the Log tab. -/
structure SheetsState where
  budgetTab : List (List PyVal)
  teTab : List (List PyVal)
  logTab : List (List PyVal)
deriving DecidableEq

/-- `sync_budget_data.main` (lines 283-315): compute both windows, fetch
and write BudgetData, fetch and write TimeEntriesData, then `log_run`
(ensure the Log sheet's header, append one row).  Exceptions are not
caught: the first failing remote call aborts the run with that error,
leaving the state reached so far. -/
def mainModel (o : RunOracles) (s : SheetsState) :
    Except String Unit × SheetsState :=
  let bw := (mainWindows o.today).1
  let tw := (mainWindows o.today).2
  match o.fetchBudget with
  | .error e => (.error e, s)
  | .ok bdata =>
    let w1 := writeStep o.clearBudget o.updateBudget bdata.1
      (run_query_rows bdata.1 bdata.2).2 s.budgetTab
    let s1 : SheetsState := { s with budgetTab := w1.2 }
    match w1.1 with
    | .error e => (.error e, s1)
    | .ok _ =>
      match o.fetchTE with
      | .error e => (.error e, s1)
      | .ok tdata =>
        let w2 := writeStep o.clearTE o.updateTE tdata.1
          (run_query_rows tdata.1 tdata.2).2 s1.teTab
        let s2 : SheetsState := { s1 with teTab := w2.2 }
        match w2.1 with
        | .error e => (.error e, s2)
        | .ok _ =>
          match o.ensureLog with
          | .error e => (.error e, s2)
          | .ok _ =>
            let s3 : SheetsState :=
              { s2 with logTab := overlayGrid s2.logTab [logHeaders.map PyVal.str] }
            match o.appendLog with
            | .error e => (.error e, s3)
            | .ok _ =>
              (.ok (), { s3 with logTab := s3.logTab ++
                [logRow o.timestamp bw.1 bw.2 bdata.2.length tw.1 tw.2 tdata.2.length] })

/-- A run whose first `date.today()` call lands on Sunday 2025-11-23 and
whose second lands just after midnight, on Monday 2025-11-24. -/
def midnightClock : Nat → Int :=
  fun n => if n = 0 then daysFromCivil 2025 11 23 else daysFromCivil 2025 11 24

/-- A run in which everything up to and including the BudgetData write
succeeds and the TimeEntries fetch fails. -/
def secondaryFailureOracles : RunOracles :=
  ⟨fun _ => 0, Except.ok (["H"], [[PyVal.int 1]]), Except.error "boom",
   Except.ok (), Except.ok (), Except.ok (), Except.ok (), Except.ok (), Except.ok (), "ts"⟩

/-- An empty spreadsheet state. -/
def emptySheets : SheetsState := ⟨[], [], []⟩

/-! ## Helper lemmas -/

theorem overlayGrid_nil (n : List (List PyVal)) : overlayGrid [] n = n := by
  cases n <;> simp [overlayGrid]

theorem overlayRow_same (o n : List PyVal) :
    overlayRow (overlayRow o n) n = overlayRow o n := by
  simp [overlayRow]

theorem overlayRow_id (r : List PyVal) : overlayRow r r = r := by
  simp [overlayRow]

theorem overlayGrid_id (l : List (List PyVal)) : overlayGrid l l = l := by
  induction l with
  | nil => rfl
  | cons r rs ih => simp [overlayGrid, overlayRow_id, ih]

theorem overlayGrid_same (o n : List (List PyVal)) :
    overlayGrid (overlayGrid o n) n = overlayGrid o n := by
  induction n generalizing o with
  | nil => simp [overlayGrid]
  | cons r rs ih =>
    cases o with
    | nil => simp [overlayGrid_nil, overlayGrid, overlayRow_id, overlayGrid_id]
    | cons g gs => simp [overlayGrid, overlayRow_same, ih]

theorem updateFirst_same (s : List SheetTab) (t : String) (v : List (List PyVal)) :
    updateFirst (updateFirst s t v) t v = updateFirst s t v := by
  induction s with
  | nil => rfl
  | cons tab rest ih =>
    by_cases h : tab.title = t
    · simp [updateFirst, h, overlayGrid_same]
    · simp [updateFirst, h, ih]

theorem sheetExists_cons (tab : SheetTab) (l : List SheetTab) (u : String) :
    sheetExists (tab :: l) u = (tab.title == u || sheetExists l u) := rfl

theorem sheetExists_updateFirst (s : List SheetTab) (t u : String)
    (v : List (List PyVal)) :
    sheetExists (updateFirst s t v) u = sheetExists s u := by
  induction s with
  | nil => rfl
  | cons tab rest ih =>
    by_cases h : tab.title = t
    · simp [updateFirst, h, sheetExists_cons]
    · simp only [updateFirst, if_neg h, sheetExists_cons, ih]

theorem countP_updateFirst (s : List SheetTab) (t u : String)
    (v : List (List PyVal)) :
    (updateFirst s t v).countP (fun tab => tab.title == u) =
      s.countP (fun tab => tab.title == u) := by
  induction s with
  | nil => rfl
  | cons tab rest ih =>
    by_cases h : tab.title = t
    · simp [updateFirst, h, List.countP_cons]
    · simp [updateFirst, h, List.countP_cons, ih]

theorem sheetExists_addSheet (s : List SheetTab) (t : String) :
    sheetExists (addSheet s t) t = true := by
  simp [sheetExists, addSheet]

theorem sheetExists_ensure (s : List SheetTab) (t : String) :
    sheetExists (ensure_log_sheet s t) t = true := by
  unfold ensure_log_sheet
  rw [sheetExists_updateFirst]
  by_cases h : sheetExists s t
  · simp [h]
  · simp [h, sheetExists_addSheet]

theorem updateFirst_ensure (s : List SheetTab) (t : String) :
    updateFirst (ensure_log_sheet s t) t [logHeaders.map PyVal.str] =
      ensure_log_sheet s t := by
  unfold ensure_log_sheet
  exact updateFirst_same _ t _

theorem ensure_idem (s : List SheetTab) (t : String) :
    ensure_log_sheet (ensure_log_sheet s t) t = ensure_log_sheet s t := by
  conv_lhs => rw [ensure_log_sheet]
  simp only [sheetExists_ensure, if_true]
  exact updateFirst_ensure s t

theorem countP_addSheet (s : List SheetTab) (t : String) :
    (addSheet s t).countP (fun tab => tab.title == t) =
      s.countP (fun tab => tab.title == t) + 1 := by
  simp [addSheet, List.countP_append]

theorem countP_ensure (s : List SheetTab) (t : String)
    (h : s.countP (fun tab => tab.title == t) ≤ 1) :
    (ensure_log_sheet s t).countP (fun tab => tab.title == t) = 1 := by
  unfold ensure_log_sheet
  rw [countP_updateFirst]
  by_cases he : sheetExists s t
  · rw [if_pos he]
    have hpos : 0 < s.countP (fun tab => tab.title == t) := by
      rw [List.countP_pos_iff]
      simpa [sheetExists, List.any_eq_true] using he
    omega
  · rw [if_neg he, countP_addSheet]
    have hz : s.countP (fun tab => tab.title == t) = 0 := by
      rw [List.countP_eq_zero]
      intro a ha hc
      exact he (by simp [sheetExists, List.any_eq_true]; exact ⟨a, ha, by simpa using hc⟩)
    omega

/-! ## Claims -/

/-- Claim C1: for every date `T`, `compute_budget_date_range` returns the
centered window `(T - 75, T + 75)` with start ≤ end; for
T = 2025-11-25 it returns (2025-09-11, 2026-02-08). -/
theorem budget_range_centered :
    (∀ T : Int, (compute_budget_date_range T).1 = T - 75 ∧
      (compute_budget_date_range T).2 = T + 75 ∧
      (compute_budget_date_range T).1 ≤ (compute_budget_date_range T).2) ∧
    compute_budget_date_range (daysFromCivil 2025 11 25) =
      (daysFromCivil 2025 9 11, daysFromCivil 2026 2 8) := by
  refine ⟨fun T => ?_, by decide⟩
  dsimp only [compute_budget_date_range]
  omega

/-- Claim C2: for every date `T`, `compute_time_entries_range` returns
`(prevMonday, prevSunday)` with `prevMonday = (T - weekday T) - 7` and
`prevSunday = prevMonday + 6`; the start is always a Monday (weekday 0),
the end always the following Sunday (weekday 6), and the window ends
strictly before the Monday of T's week; for T = 2025-11-25 (a Tuesday) it
returns (2025-11-17, 2025-11-23). -/
theorem time_entries_prev_week :
    (∀ T : Int,
      (compute_time_entries_range T).1 = T - pythonWeekday T - 7 ∧
      (compute_time_entries_range T).2 = (compute_time_entries_range T).1 + 6 ∧
      pythonWeekday (compute_time_entries_range T).1 = 0 ∧
      pythonWeekday (compute_time_entries_range T).2 = 6 ∧
      (compute_time_entries_range T).2 < T - pythonWeekday T) ∧
    compute_time_entries_range (daysFromCivil 2025 11 25) =
      (daysFromCivil 2025 11 17, daysFromCivil 2025 11 23) := by
  refine ⟨fun T => ?_, by decide⟩
  dsimp only [compute_time_entries_range, pythonWeekday]
  omega

/-- Claim C3, counterexample: a run whose two `date.today()` calls straddle
the Sunday-to-Monday midnight (2025-11-23 to 2025-11-24) produces a pair of
windows that no single calendar date produces, so `main` does not reuse one
evaluation of today for both window computations. -/
theorem main_windows_not_single_date :
    ¬ ∃ T : Int, mainWindows midnightClock =
      (compute_budget_date_range T, compute_time_entries_range T) := by
  rintro ⟨T, h⟩
  have e23 : daysFromCivil 2025 11 23 = 20415 := by decide
  have e24 : daysFromCivil 2025 11 24 = 20416 := by decide
  simp only [mainWindows, midnightClock, e23, e24,
    compute_budget_date_range, compute_time_entries_range, pythonWeekday,
    Prod.mk.injEq, reduceIte] at h
  omega

/-- Claim C3, amended: `date.today()` is evaluated once inside each of the
two window functions; whenever both evaluations return the same date (no
midnight crossing between the two calls), both windows are computed from
that one date. -/
theorem main_windows_single_date_when_no_crossing (clock : Nat → Int) (T : Int)
    (h0 : clock 0 = T) (h1 : clock 1 = T) :
    mainWindows clock = (compute_budget_date_range T, compute_time_entries_range T) := by
  simp [mainWindows, h0, h1]

/-- Claim C3, witness: a run whose `date.today()` calls all return day 0. -/
theorem main_windows_single_date_witness :
    mainWindows (fun _ => 0) = (compute_budget_date_range 0, compute_time_entries_range 0) :=
  main_windows_single_date_when_no_crossing (fun _ => 0) 0 rfl rfl

/-- Claim C4: `write_to_sheet` clears the tab and then writes `[H] + R` at
A1, so for every header list, row list and previous tab contents the tab
afterwards is exactly the header row followed by the data rows — N+1 rows
for N data rows; for zero rows it is the header-only 1-row tab and the
remote calls report success, not an error. -/
theorem write_to_sheet_contract :
    (∀ (headers : List String) (rows grid : List (List PyVal)),
      write_to_sheet headers rows grid = headers.map PyVal.str :: rows ∧
      (write_to_sheet headers rows grid).length = rows.length + 1) ∧
    (∀ (headers : List String) (grid : List (List PyVal)),
      write_to_sheet headers [] grid = [headers.map PyVal.str] ∧
      (writeStep (Except.ok ()) (Except.ok ()) headers [] grid).1 = Except.ok ()) := by
  constructor
  · intro headers rows grid
    constructor
    · simp [write_to_sheet, writeStep, overlayGrid_nil]
    · simp [write_to_sheet, writeStep, overlayGrid_nil]
  · intro headers grid
    exact ⟨by simp [write_to_sheet, writeStep, overlayGrid_nil], rfl⟩

/-- Claim C5: when the BudgetData fetch and write succeed and the
TimeEntries fetch or either of its write calls fails, the run ends in an
error, the BudgetData tab keeps its newly written contents (header row plus
normalized data rows), and the Log tab is untouched — no log entry is
appended for the run. -/
theorem main_secondary_failure_aborts (o : RunOracles) (s : SheetsState)
    (bh : List String) (br : List (List PyVal))
    (hfb : o.fetchBudget = Except.ok (bh, br))
    (hcb : o.clearBudget = Except.ok ())
    (hub : o.updateBudget = Except.ok ())
    (hfail : (∃ e, o.fetchTE = Except.error e) ∨ (∃ e, o.clearTE = Except.error e) ∨
      (∃ e, o.updateTE = Except.error e)) :
    (∃ e, (mainModel o s).1 = Except.error e) ∧
    (mainModel o s).2.budgetTab =
      bh.map PyVal.str :: br.map (fun row => row.map _normalize_value) ∧
    (mainModel o s).2.logTab = s.logTab := by
  have hw1 : writeStep o.clearBudget o.updateBudget bh
      (run_query_rows bh br).2 s.budgetTab =
      (Except.ok (), bh.map PyVal.str :: br.map (fun row => row.map _normalize_value)) := by
    rw [hcb, hub]
    simp [writeStep, overlayGrid_nil, run_query_rows]
  unfold mainModel
  rw [hfb]
  simp only [hw1]
  rcases hfe : o.fetchTE with e | tdata
  · simp [hfe]
  · rcases hce : o.clearTE with e | u
    · simp [hfe, hce, writeStep]
    · rcases hue : o.updateTE with e | u2
      · simp [hfe, hce, hue, writeStep]
      · exfalso
        rcases hfail with ⟨e, h⟩ | ⟨e, h⟩ | ⟨e, h⟩ <;> simp_all

/-- Claim C5, witness: a concrete run in which the TimeEntries fetch fails
after the BudgetData tab was written. -/
theorem main_secondary_failure_witness :
    (∃ e, (mainModel secondaryFailureOracles emptySheets).1 = Except.error e) ∧
    (mainModel secondaryFailureOracles emptySheets).2.budgetTab =
      (["H"].map PyVal.str) ::
        ([[PyVal.int 1]].map (fun row => row.map _normalize_value)) ∧
    (mainModel secondaryFailureOracles emptySheets).2.logTab = emptySheets.logTab :=
  main_secondary_failure_aborts secondaryFailureOracles emptySheets ["H"] [[PyVal.int 1]]
    rfl rfl rfl (Or.inl ⟨"boom", rfl⟩)

/-- Claim C6: `_normalize_value` maps `None` to `""`, every `Decimal` to the
corresponding float, every date and datetime to its ISO-8601 string, and
leaves strings, ints, floats and booleans unchanged; `run_query` applies it
to every cell of every row. -/
theorem normalize_value_contract :
    (_normalize_value PyVal.none = PyVal.str "") ∧
    (∀ q : ℚ, _normalize_value (PyVal.decimal q) = PyVal.float q) ∧
    (∀ y m d : Int, _normalize_value (PyVal.date y m d) =
      PyVal.str (pyIsoformat (PyVal.date y m d))) ∧
    (∀ y m d hh mi ss : Int, _normalize_value (PyVal.datetime y m d hh mi ss) =
      PyVal.str (pyIsoformat (PyVal.datetime y m d hh mi ss))) ∧
    (∀ s : String, _normalize_value (PyVal.str s) = PyVal.str s) ∧
    (∀ n : Int, _normalize_value (PyVal.int n) = PyVal.int n) ∧
    (∀ q : ℚ, _normalize_value (PyVal.float q) = PyVal.float q) ∧
    (∀ b : Bool, _normalize_value (PyVal.bool b) = PyVal.bool b) ∧
    (∀ (headers : List String) (rows : List (List PyVal)),
      run_query_rows headers rows =
        (headers, rows.map fun row => row.map _normalize_value)) :=
  ⟨rfl, fun _ => rfl, fun _ _ _ => rfl, fun _ _ _ _ _ _ => rfl, fun _ => rfl,
   fun _ => rfl, fun _ => rfl, fun _ => rfl, fun _ _ => rfl⟩

/-- Claim C7, counterexample: in the execution where acquiring the cursor
fails, `run_query` closes neither the cursor nor the connection (the
acquisition happens before its `try`), and `fetch_budget_data` does not
close the connection either (its `finally` dies on the unbound `cursor`
name). -/
theorem adapter_leaks_on_cursor_failure :
    ResEvent.connClose ∉ run_query_trace false true true ∧
    ResEvent.cursorClose ∉ run_query_trace false true true ∧
    ResEvent.connClose ∉ WeeklyBudget.fetch_budget_data_trace false true true := by
  decide

/-- Claim C7, amended: once the cursor is acquired, both `run_query` and
`fetch_budget_data` close the cursor and the connection on every exit path,
whether executing the query or fetching the rows succeeds or fails; only
the cursor-acquisition failure path leaks the connection. -/
theorem adapter_releases_once_cursor_acquired : ∀ execOk fetchOk : Bool,
    ResEvent.cursorClose ∈ run_query_trace true execOk fetchOk ∧
    ResEvent.connClose ∈ run_query_trace true execOk fetchOk ∧
    ResEvent.cursorClose ∈ WeeklyBudget.fetch_budget_data_trace true execOk fetchOk ∧
    ResEvent.connClose ∈ WeeklyBudget.fetch_budget_data_trace true execOk fetchOk := by
  decide

/-- Claim C8: calling `ensure_log_sheet` twice in a row on a spreadsheet
with at most one tab named "Log" leaves exactly one tab named "Log", and
the second call changes nothing at all (in particular the header row is
unchanged). -/
theorem ensure_log_sheet_idempotent (s : List SheetTab)
    (h : s.countP (fun tab => tab.title == "Log") ≤ 1) :
    (ensure_log_sheet (ensure_log_sheet s "Log") "Log").countP
        (fun tab => tab.title == "Log") = 1 ∧
    ensure_log_sheet (ensure_log_sheet s "Log") "Log" = ensure_log_sheet s "Log" := by
  refine ⟨?_, ensure_idem s "Log"⟩
  rw [ensure_idem s "Log"]
  exact countP_ensure s "Log" h

/-- Claim C8, witness: the empty spreadsheet. -/
theorem ensure_log_sheet_idempotent_witness :
    (ensure_log_sheet (ensure_log_sheet [] "Log") "Log").countP
        (fun tab => tab.title == "Log") = 1 ∧
    ensure_log_sheet (ensure_log_sheet [] "Log") "Log" = ensure_log_sheet [] "Log" :=
  ensure_log_sheet_idempotent [] (by decide)

/-- Claim C9: `_normalize_snowflake_account` maps
`" https://abc123.snowflakecomputing.com "` to `"abc123"` and `"abc123"` to
itself, and on any already-clean value (no surrounding whitespace, no
scheme prefix, no domain suffix) it is a no-op. -/
theorem normalize_account_contract :
    _normalize_snowflake_account " https://abc123.snowflakecomputing.com " = "abc123" ∧
    _normalize_snowflake_account "abc123" = "abc123" ∧
    ∀ s : String, pyStrip s = s →
      ("https://".data.isPrefixOf s.data) = false →
      ("http://".data.isPrefixOf s.data) = false →
      breakOn snowflakeDomain s.data = none →
      _normalize_snowflake_account s = s := by
  refine ⟨by decide, by decide, ?_⟩
  intro s h1 h2 h3 h4
  simp [_normalize_snowflake_account, h1, h2, h3, h4]

/-- Claim C9, witness: the clean-value no-op applied at `"zzz"`. -/
theorem normalize_account_witness : _normalize_snowflake_account "zzz" = "zzz" :=
  normalize_account_contract.2.2 "zzz" (by decide) (by decide) (by decide) (by decide)

/-- Claim C10, counterexample: on a `Decimal` the two scripts' normalizers
disagree — `Weekly-Budget`'s `normalize` returns the Decimal unchanged
while `sync_budget_data._normalize_value` converts it to a float. -/
theorem normalize_functions_differ_on_decimal :
    WeeklyBudget.normalize (PyVal.decimal 0) = PyVal.decimal 0 ∧
    _normalize_value (PyVal.decimal 0) = PyVal.float 0 ∧
    PyVal.decimal (0 : ℚ) ≠ PyVal.float 0 :=
  ⟨rfl, rfl, by decide⟩

/-- Claim C10, amended: the two normalizers agree on every value that is
not a `Decimal`. -/
theorem normalize_functions_agree_off_decimal (v : PyVal)
    (h : ∀ q, v ≠ PyVal.decimal q) :
    WeeklyBudget.normalize v = _normalize_value v := by
  cases v <;> simp_all [WeeklyBudget.normalize, _normalize_value]

/-- Claim C10, witness: agreement at a string value. -/
theorem normalize_functions_agree_witness :
    WeeklyBudget.normalize (PyVal.str "x") = _normalize_value (PyVal.str "x") :=
  normalize_functions_agree_off_decimal (PyVal.str "x")
    (fun _ h => PyVal.noConfusion h)

end BudgetSync
